import Mathlib

/-
Verification of the trivia API backend
(src/projects/02_trivia_api/starter/backend/flaskr/__init__.py).

The handlers are embedded as pure Lean functions over an explicit store
(the list of persisted questions).  HTTP aborts become an `Except` error
carrying the status code and the optional description passed to `abort`;
the registered Flask error handlers are embedded as the map from a status
code to the fixed JSON error body.  External database effects that can
fail (insert, delete) are modelled by a boolean parameter saying whether
the operation succeeds, and the id generated for an inserted row is a
parameter.  `random.choice` is modelled by an arbitrary index parameter
reduced modulo the length of the chosen-from list.
-/

/-- A persisted question row: id (generated), question text, answer text,
category (stored as text) and difficulty. -/
structure Question where
  id : Nat
  question : String
  answer : String
  category : String
  difficulty : Int
deriving DecidableEq, Repr

/-- A formatted row, as returned to clients. -/
structure FormattedQuestion where
  id : Nat
  question : String
  answer : String
  category : String
  difficulty : Int
deriving DecidableEq, Repr

/-- Modelled from the spec: the per-row `format` method lives in
`models.py`, which is not under src; the spec describes it as
"per-row formatting to a plain field mapping". -/
def Question.format (q : Question) : FormattedQuestion :=
  ⟨q.id, q.question, q.answer, q.category, q.difficulty⟩

/-- An aborted request: HTTP status code plus the optional description
string given to `abort` (Flask keeps it on the exception object). -/
structure HErr where
  status : Nat
  description : Option String
deriving DecidableEq, Repr

/-- Python index resolution for list slicing: a negative index counts
from the end of the list, and the result is clamped to `[0, n]`. -/
def pyIdx (n : Nat) (i : Int) : Nat :=
  (if i < 0 then (n : Int) + i else min i (n : Int)).toNat

/-- Python list slice `xs[i:j]`: elements from resolved index `i`
(inclusive) to resolved index `j` (exclusive). -/
def pySlice {α : Type} (xs : List α) (i j : Int) : List α :=
  (xs.take (pyIdx xs.length j)).drop (pyIdx xs.length i)

def QUESTIONS_PER_PAGE : Int := 10

/-- Embeds `paginate_questions(request, selection)`: the page number is the
`page` query parameter (default 1; its parsing is outside this model), the
selection is formatted and then sliced with Python slice semantics at
`[(page-1)*10 : page*10]`. -/
def paginate_questions (page : Int) (selection : List Question) :
    List FormattedQuestion :=
  let start := (page - 1) * QUESTIONS_PER_PAGE
  let stop := start + QUESTIONS_PER_PAGE
  let questions := selection.map Question.format
  pySlice questions start stop

/- Helper lemmas about Python slices. -/

lemma take_min_length {α : Type} (l : List α) (j : Nat) :
    l.take (min j l.length) = l.take j := by
  rcases Nat.le_total j l.length with h | h
  · rw [Nat.min_eq_left h]
  · rw [Nat.min_eq_right h, List.take_length, List.take_of_length_le h]

lemma pyIdx_of_nonneg (n : Nat) (i : Int) (h : 0 ≤ i) :
    pyIdx n i = min i.toNat n := by
  unfold pyIdx
  split <;> omega

lemma slice_take_drop {α : Type} (xs : List α) (s e : Nat) :
    (xs.take (min e xs.length)).drop (min s xs.length)
      = (xs.drop s).take (e - s) := by
  rw [take_min_length]
  rcases Nat.le_total s xs.length with hs | hs
  · rw [Nat.min_eq_left hs]
    rcases Nat.le_total s e with hse | hse
    · have he : e = s + (e - s) := by omega
      rw [List.take_drop, ← he]
    · rw [Nat.sub_eq_zero_of_le hse, List.take_zero]
      apply List.drop_of_length_le
      calc (xs.take e).length ≤ e := by
            simp [Nat.min_le_left]
        _ ≤ s := hse
  · rw [Nat.min_eq_right hs]
    rw [List.drop_of_length_le (l := xs) hs, List.take_nil]
    apply List.drop_of_length_le
    simp [Nat.min_le_right]

lemma pySlice_of_nonneg {α : Type} (xs : List α) (i j : Int)
    (hi : 0 ≤ i) (hj : 0 ≤ j) :
    pySlice xs i j = (xs.drop i.toNat).take (j.toNat - i.toNat) := by
  unfold pySlice
  rw [pyIdx_of_nonneg _ _ hi, pyIdx_of_nonneg _ _ hj]
  exact slice_take_drop xs i.toNat j.toNat

lemma paginate_eq_of_pos (p : Int) (qs : List Question) (hp : 1 ≤ p) :
    paginate_questions p qs
      = ((qs.map Question.format).drop ((p - 1) * 10).toNat).take 10 := by
  unfold paginate_questions QUESTIONS_PER_PAGE
  rw [pySlice_of_nonneg _ _ _ (by omega) (by omega)]
  congr 1
  omega

/-- C1: for every page number p ≥ 1, the pagination helper returns exactly
the slice `[(p-1)*10 : p*10]` of the formatted selection; when
`(p-1)*10 ≥ length` the result is empty (no error), and otherwise its
length is `min 10 (length - (p-1)*10)`. -/
theorem C1_paginate_page_slice (p : Int) (qs : List Question) (hp : 1 ≤ p) :
    paginate_questions p qs
      = ((qs.map Question.format).drop ((p - 1) * 10).toNat).take 10
    ∧ ((qs.length : Int) ≤ (p - 1) * 10 → paginate_questions p qs = [])
    ∧ ((p - 1) * 10 < (qs.length : Int) →
        ((paginate_questions p qs).length : Int)
          = min 10 ((qs.length : Int) - (p - 1) * 10)) := by
  have h := paginate_eq_of_pos p qs hp
  refine ⟨h, ?_, ?_⟩
  · intro hle
    rw [h, List.drop_of_length_le, List.take_nil]
    simp only [List.length_map]
    omega
  · intro hlt
    rw [h]
    simp only [List.length_take, List.length_drop, List.length_map]
    omega

theorem C1_paginate_page_slice_witness :
    (1 : Int) ≤ 2
    ∧ (paginate_questions 2 (List.replicate 15 ⟨1, "q", "a", "1", 1⟩)
          = (((List.replicate 15 (⟨1, "q", "a", "1", 1⟩ : Question)).map
                Question.format).drop (((2:Int) - 1) * 10).toNat).take 10
        ∧ (((List.replicate 15 (⟨1, "q", "a", "1", 1⟩ : Question)).length : Int)
              ≤ ((2:Int) - 1) * 10 →
            paginate_questions 2 (List.replicate 15 ⟨1, "q", "a", "1", 1⟩) = [])
        ∧ (((2:Int) - 1) * 10
              < ((List.replicate 15 (⟨1, "q", "a", "1", 1⟩ : Question)).length : Int) →
            ((paginate_questions 2
                (List.replicate 15 ⟨1, "q", "a", "1", 1⟩)).length : Int)
              = min 10 (((List.replicate 15 (⟨1, "q", "a", "1", 1⟩ : Question)).length : Int)
                  - ((2:Int) - 1) * 10))) :=
  ⟨by decide, C1_paginate_page_slice 2 _ (by decide)⟩

/-- C9: the helper does not clamp non-positive pages: page 0 yields the
empty slice for every selection, and a negative page -k over a selection
of length at least 10*(1+k) yields the slice taken from the end of the
list through Python negative indexing, items `[len-10*(k+1), len-10*k)`. -/
theorem C9_paginate_nonpositive_pages :
    (∀ qs : List Question, paginate_questions 0 qs = [])
    ∧ (∀ (qs : List Question) (k : Nat), 1 ≤ k → 10 * (1 + k) ≤ qs.length →
        paginate_questions (-(k : Int)) qs
          = ((qs.map Question.format).drop (qs.length - 10 * (k + 1))).take 10) := by
  constructor
  · intro qs
    have h0 : pyIdx (qs.map Question.format).length (((0:Int) - 1) * 10 + 10) = 0 := by
      unfold pyIdx; split <;> omega
    simp only [paginate_questions, QUESTIONS_PER_PAGE, pySlice]
    rw [h0, List.take_zero, List.drop_nil]
  · intro qs k hk hlen
    have hlm : (qs.map Question.format).length = qs.length := List.length_map _ _
    have hstart : pyIdx (qs.map Question.format).length ((-(k : Int) - 1) * 10)
        = qs.length - 10 * (k + 1) := by
      unfold pyIdx; rw [hlm]; split <;> omega
    have hstop : pyIdx (qs.map Question.format).length ((-(k : Int) - 1) * 10 + 10)
        = qs.length - 10 * k := by
      unfold pyIdx; rw [hlm]; split <;> omega
    simp only [paginate_questions, QUESTIONS_PER_PAGE, pySlice]
    rw [hstart, hstop]
    have hsl := slice_take_drop (qs.map Question.format)
      (qs.length - 10 * (k + 1)) (qs.length - 10 * k)
    rw [hlm, Nat.min_eq_left (by omega), Nat.min_eq_left (by omega)] at hsl
    rw [hsl]
    congr 1
    omega

/- The POST /api/questions endpoint (combined search / create). -/

/-- The JSON body of a POST /api/questions request; `none` models an
absent key (a missing key read by the handler raises a KeyError). -/
structure QuestionBody where
  searchTerm : Option String
  question : Option String
  answer : Option String
  category : Option String
  difficulty : Option Int
deriving DecidableEq, Repr

/-- Python str.lower(), embedded as a character-wise map. -/
def pyLower (s : String) : String := ⟨s.data.map Char.toLower⟩

/-- Python str.strip(): removes leading and trailing whitespace. -/
def pyStrip (s : String) : String :=
  ⟨((s.data.dropWhile Char.isWhitespace).reverse.dropWhile
      Char.isWhitespace).reverse⟩

/-- Modelled from the spec: the query layer (models.py / the database) is
not under src; the spec describes the `ilike` pattern `%term%` as a
"case-insensitive substring match" of the term against the question text. -/
def containsCI (text pat : String) : Bool :=
  decide ((pyLower pat).data <:+: (pyLower text).data)

/-- Response body of the search branch of POST /api/questions. -/
structure SearchResponse where
  success : Bool
  questions : List FormattedQuestion
  totalQuestions : Nat
  currentCategory : Option Nat
deriving DecidableEq, Repr

/-- Response body of the create branch of POST /api/questions. -/
structure CreateResponse where
  success : Bool
  added : Nat
deriving DecidableEq, Repr

/-- The two possible success bodies of POST /api/questions. -/
inductive PostResponse where
  | search (r : SearchResponse)
  | create (r : CreateResponse)
deriving DecidableEq, Repr

/-- Embeds `add_question()`.  `dbOk` says whether the database insert
succeeds (an exception in the try block is caught and turned into a 422);
`newId` is the id the store generates for an inserted row.  The second
component of the result is the store after the request.  A KeyError on
`content['question']` or `content['answer']` is raised outside any try
block, so it becomes an unhandled exception: HTTP 500.  A KeyError on
`content['category']` or `content['difficulty']` is raised inside the try
block, so it is caught and mapped to 422.  The blank-text check aborts
with 400 and the description string before anything is persisted. -/
def add_question (dbOk : Bool) (newId : Nat) (body : QuestionBody)
    (store : List Question) : Except HErr PostResponse × List Question :=
  match body.searchTerm with
  | some term =>
      let questions := store.filter (fun q => containsCI q.question term)
      let questions_list := questions.map Question.format
      let totalQuestions := store.length
      (.ok (.search ⟨true, questions_list, totalQuestions, none⟩), store)
  | none =>
      match body.question with
      | none => (.error ⟨500, none⟩, store)
      | some q =>
        if pyStrip q = "" then
          (.error ⟨400, some "empty question or answer"⟩, store)
        else
          match body.answer with
          | none => (.error ⟨500, none⟩, store)
          | some a =>
            if pyStrip a = "" then
              (.error ⟨400, some "empty question or answer"⟩, store)
            else
              match body.category, body.difficulty with
              | some c, some d =>
                  if dbOk then
                    (.ok (.create ⟨true, newId⟩), store ++ [⟨newId, q, a, c, d⟩])
                  else (.error ⟨422, none⟩, store)
              | _, _ => (.error ⟨422, none⟩, store)

/- The registered Flask error handlers: a fixed map from status code to
JSON body.  Note the handlers ignore the description carried by the
exception `abort` raised. -/

/-- The JSON body every error handler produces. -/
structure ErrorBody where
  success : Bool
  error : Nat
  message : String
deriving DecidableEq, Repr

/-- The fixed message of each registered error handler (bed_request,
not_found, not_allowed, unprocessable, server_error). -/
def errorMessage : Nat → String
  | 400 => "bed request"
  | 404 => "resource not found"
  | 405 => "method not allowed"
  | 422 => "unprocessable"
  | 500 => "Internal Server Error"
  | _ => ""

/-- Applying the error handlers to a handler outcome: an abort is turned
into the fixed `{success: false, error, message}` body for its status
code; the description passed to `abort` is discarded. -/
def finalize {α : Type} : Except HErr α → Except ErrorBody α
  | .ok a => .ok a
  | .error e => .error ⟨false, e.status, errorMessage e.status⟩

/-- C2: whenever the body carries a searchTerm, the endpoint returns 200
with success true, the (unpaginated) formatted list of the questions whose
text contains the term case-insensitively, and totalQuestions equal to the
count of ALL stored questions; the store is untouched.  In particular a
term with zero matches still yields this success response, never a 404. -/
theorem C2_search_mode (term : String) (body : QuestionBody)
    (store : List Question) (dbOk : Bool) (newId : Nat)
    (h : body.searchTerm = some term) :
    add_question dbOk newId body store
      = (.ok (.search ⟨true,
          (store.filter (fun q => containsCI q.question term)).map Question.format,
          store.length, none⟩), store) := by
  unfold add_question
  rw [h]

theorem C2_search_mode_witness :
    (QuestionBody.mk (some "titLE") none none none none).searchTerm = some "titLE"
    ∧ add_question true 7 (QuestionBody.mk (some "titLE") none none none none)
        [⟨1, "What is the title?", "a", "1", 1⟩, ⟨2, "Other", "b", "2", 2⟩]
      = (.ok (.search ⟨true,
          ([⟨1, "What is the title?", "a", "1", 1⟩,
            ⟨2, "Other", "b", "2", 2⟩].filter
              (fun q => containsCI q.question "titLE")).map Question.format,
          ([⟨1, "What is the title?", "a", "1", 1⟩,
            (⟨2, "Other", "b", "2", 2⟩ : Question)] : List Question).length,
          none⟩),
         [⟨1, "What is the title?", "a", "1", 1⟩, ⟨2, "Other", "b", "2", 2⟩]) :=
  ⟨rfl, C2_search_mode "titLE" _ _ true 7 rfl⟩

lemma containsCI_empty_pat (s : String) : containsCI s "" = true := by
  have h0 : (pyLower "").data = [] := by decide
  unfold containsCI
  rw [h0]
  exact decide_eq_true List.nil_infix

/-- C10: a present searchTerm key selects search mode even when its value
is the empty string, and the empty pattern matches every stored question:
the returned questions list is the full (formatted) store. -/
theorem C10_empty_searchTerm_matches_all (body : QuestionBody)
    (store : List Question) (dbOk : Bool) (newId : Nat)
    (h : body.searchTerm = some "") :
    add_question dbOk newId body store
      = (.ok (.search ⟨true, store.map Question.format, store.length, none⟩),
         store) := by
  have hf : store.filter (fun q => containsCI q.question "") = store :=
    List.filter_eq_self.mpr (fun a _ => containsCI_empty_pat a.question)
  unfold add_question
  rw [h]
  simp only [hf]

theorem C10_empty_searchTerm_matches_all_witness :
    (QuestionBody.mk (some "") (some "ignored") none none none).searchTerm
        = some ""
    ∧ add_question false 3
        (QuestionBody.mk (some "") (some "ignored") none none none)
        [⟨1, "Alpha?", "a", "1", 1⟩, ⟨2, "Beta?", "b", "2", 2⟩]
      = (.ok (.search ⟨true,
          ([⟨1, "Alpha?", "a", "1", 1⟩,
            (⟨2, "Beta?", "b", "2", 2⟩ : Question)] : List Question).map
              Question.format,
          ([⟨1, "Alpha?", "a", "1", 1⟩,
            (⟨2, "Beta?", "b", "2", 2⟩ : Question)] : List Question).length,
          none⟩),
         [⟨1, "Alpha?", "a", "1", 1⟩, ⟨2, "Beta?", "b", "2", 2⟩]) :=
  ⟨rfl, C10_empty_searchTerm_matches_all _ _ false 3 rfl⟩

/-- C5: a create-mode request (no searchTerm key) whose question or answer
is empty after trimming whitespace aborts with 400 and leaves the store
unchanged: nothing is persisted. -/
theorem C5_blank_create_rejected (body : QuestionBody) (store : List Question)
    (dbOk : Bool) (newId : Nat) (q a : String)
    (hs : body.searchTerm = none) (hq : body.question = some q)
    (ha : body.answer = some a) (hblank : pyStrip q = "" ∨ pyStrip a = "") :
    add_question dbOk newId body store
      = (.error ⟨400, some "empty question or answer"⟩, store) := by
  rcases body with ⟨bs, bq, bans, bc, bd⟩
  obtain rfl : bs = none := hs
  obtain rfl : bq = some q := hq
  obtain rfl : bans = some a := ha
  dsimp only [add_question]
  rcases hblank with hb | hb
  · rw [if_pos hb]
  · by_cases hqb : pyStrip q = ""
    · rw [if_pos hqb]
    · rw [if_neg hqb, if_pos hb]

theorem C5_blank_create_rejected_witness :
    (QuestionBody.mk none (some "Real question?") (some " \t ")
        (some "2") (some 3)).searchTerm = none
    ∧ (QuestionBody.mk none (some "Real question?") (some " \t ")
        (some "2") (some 3)).question = some "Real question?"
    ∧ (QuestionBody.mk none (some "Real question?") (some " \t ")
        (some "2") (some 3)).answer = some " \t "
    ∧ (pyStrip "Real question?" = "" ∨ pyStrip " \t " = "")
    ∧ add_question true 9
        (QuestionBody.mk none (some "Real question?") (some " \t ")
          (some "2") (some 3))
        [⟨1, "Alpha?", "a", "1", 1⟩]
      = (.error ⟨400, some "empty question or answer"⟩,
         [⟨1, "Alpha?", "a", "1", 1⟩]) :=
  ⟨rfl, rfl, rfl, by decide,
    C5_blank_create_rejected _ _ true 9 "Real question?" " \t " rfl rfl rfl
      (by decide)⟩

/-- The body of the example request of C6: question is whitespace only. -/
def c6_body : QuestionBody := ⟨none, some "  ", some "x", some "1", some 1⟩

/-- C6 counterexample: for the request
`{"question":"  ","answer":"x","category":"1","difficulty":1}` the final
JSON error body carries the fixed 400-handler message "bed request", not
"empty question or answer" as the claim states. -/
theorem C6_message_counterexample :
    finalize (add_question true 1 c6_body []).1
        = .error ⟨false, 400, "bed request"⟩
    ∧ "bed request" ≠ "empty question or answer" :=
  ⟨rfl, by decide⟩

/-- C6 amended: the request aborts with status 400 and description
"empty question or answer", but the registered 400 handler discards the
description, so the JSON body message field is "bed request". -/
theorem C6_amended_bed_request :
    (add_question true 1 c6_body []).1
        = .error ⟨400, some "empty question or answer"⟩
    ∧ finalize (add_question true 1 c6_body []).1
        = .error ⟨false, 400, "bed request"⟩ :=
  ⟨rfl, rfl⟩

/-- The body of the C7 counterexample: create mode with valid texts but
no category key. -/
def c7_body : QuestionBody := ⟨none, some "Is this valid?", some "yes", none, some 1⟩

/-- C7 counterexample: a create-mode request missing the required
category field is answered with 422 (the KeyError inside the try block is
caught), not with the claimed 400. -/
theorem C7_missing_field_counterexample :
    (add_question true 1 c7_body []).1 = .error ⟨422, none⟩
    ∧ (422 : Nat) ≠ 400 :=
  ⟨rfl, by decide⟩

/-- C7 amended: in create mode a missing question key (or, with a
non-blank question, a missing answer key) raises a KeyError outside any
try block, which surfaces as a 500; a missing category or difficulty key
raises the KeyError inside the try block and is caught as a 422.  No
missing-field request produces a 400. -/
theorem C7_missing_fields_status (body : QuestionBody) (store : List Question)
    (dbOk : Bool) (newId : Nat) (hs : body.searchTerm = none) :
    (body.question = none →
        add_question dbOk newId body store = (.error ⟨500, none⟩, store))
    ∧ (∀ q, body.question = some q → pyStrip q ≠ "" → body.answer = none →
        add_question dbOk newId body store = (.error ⟨500, none⟩, store))
    ∧ (∀ q a, body.question = some q → body.answer = some a →
        pyStrip q ≠ "" → pyStrip a ≠ "" →
        (body.category = none ∨ body.difficulty = none) →
        add_question dbOk newId body store = (.error ⟨422, none⟩, store)) := by
  rcases body with ⟨bs, bq, bans, bc, bd⟩
  obtain rfl : bs = none := hs
  refine ⟨?_, ?_, ?_⟩
  · intro h
    obtain rfl : bq = none := h
    rfl
  · intro q hq hqs h
    obtain rfl : bq = some q := hq
    obtain rfl : bans = none := h
    dsimp only [add_question]
    rw [if_neg hqs]
  · intro q a hq ha hqs has hcd
    obtain rfl : bq = some q := hq
    obtain rfl : bans = some a := ha
    dsimp only [add_question]
    rw [if_neg hqs, if_neg has]
    rcases hcd with h | h
    · obtain rfl : bc = none := h
      rfl
    · obtain rfl : bd = none := h
      cases bc <;> rfl

/-- The body used by the C7 witness: category key missing. -/
def c7_witness_body : QuestionBody := ⟨none, some "Q?", some "A", none, some 2⟩

theorem C7_missing_fields_status_witness :
    c7_witness_body.searchTerm = none
    ∧ add_question true 5 c7_witness_body [] = (.error ⟨422, none⟩, []) :=
  ⟨rfl, (C7_missing_fields_status c7_witness_body [] true 5 rfl).2.2 "Q?" "A"
      rfl rfl (by decide) (by decide) (Or.inl rfl)⟩

theorem C9_paginate_nonpositive_pages_witness :
    paginate_questions 0 [] = []
    ∧ (1 ≤ 1)
    ∧ 10 * (1 + 1) ≤ (List.replicate 20 (⟨1, "q", "a", "1", 1⟩ : Question)).length
    ∧ paginate_questions (-((1 : Nat) : Int))
          (List.replicate 20 ⟨1, "q", "a", "1", 1⟩)
        = (((List.replicate 20 (⟨1, "q", "a", "1", 1⟩ : Question)).map
              Question.format).drop
            ((List.replicate 20 (⟨1, "q", "a", "1", 1⟩ : Question)).length
              - 10 * (1 + 1))).take 10 :=
  ⟨C9_paginate_nonpositive_pages.1 [], by decide, by decide,
    C9_paginate_nonpositive_pages.2 _ 1 (by decide) (by decide)⟩

/- The DELETE /api/questions/{id} endpoint. -/

/-- Success body of the delete endpoint. -/
structure DeleteResponse where
  success : Bool
  deleted : Nat
deriving DecidableEq, Repr

/-- Embeds `delete_question(question_id)`.  The primary-key lookup over
the store is a first-match search; `dbOk` says whether the database
delete succeeds (an exception is caught and mapped to 422).  The second
component is the store after the request. -/
def delete_question (dbOk : Bool) (question_id : Nat) (store : List Question) :
    Except HErr DeleteResponse × List Question :=
  match store.find? (fun q => q.id == question_id) with
  | none => (.error ⟨404, none⟩, store)
  | some _ =>
      if dbOk then
        (.ok ⟨true, question_id⟩,
         store.filter (fun q => ! (q.id == question_id)))
      else (.error ⟨422, none⟩, store)

/-- C8: deleting an id that no stored question has yields 404 with the
store unchanged; when the question exists and the database delete fails
the response is 422 with the store unchanged; when it succeeds the
response is success with the deleted id and no question with that id
remains in the store. -/
theorem C8_delete_question (dbOk : Bool) (qid : Nat) (store : List Question) :
    ((∀ q ∈ store, q.id ≠ qid) →
        delete_question dbOk qid store = (.error ⟨404, none⟩, store))
    ∧ ((∃ q ∈ store, q.id = qid) → dbOk = false →
        delete_question dbOk qid store = (.error ⟨422, none⟩, store))
    ∧ ((∃ q ∈ store, q.id = qid) → dbOk = true →
        (delete_question dbOk qid store).1 = .ok ⟨true, qid⟩
        ∧ ∀ q ∈ (delete_question dbOk qid store).2, q.id ≠ qid) := by
  refine ⟨?_, ?_, ?_⟩
  · intro h
    have hfind : store.find? (fun q => q.id == qid) = none := by
      rw [List.find?_eq_none]
      intro x hx
      simpa using h x hx
    simp [delete_question, hfind]
  · intro hex hdb
    subst hdb
    rcases hfind : store.find? (fun q => q.id == qid) with _ | x
    · rw [List.find?_eq_none] at hfind
      obtain ⟨q, hq, hid⟩ := hex
      exact absurd (by simpa using hid) (hfind q hq)
    · simp [delete_question, hfind]
  · intro hex hdb
    subst hdb
    rcases hfind : store.find? (fun q => q.id == qid) with _ | x
    · rw [List.find?_eq_none] at hfind
      obtain ⟨q, hq, hid⟩ := hex
      exact absurd (by simpa using hid) (hfind q hq)
    · constructor
      · simp [delete_question, hfind]
      · have h2 : (delete_question true qid store).2
            = store.filter (fun q => ! (q.id == qid)) := by
          simp [delete_question, hfind]
        intro q hq
        rw [h2, List.mem_filter] at hq
        simpa using hq.2

theorem C8_delete_question_witness :
    ((∀ q ∈ ([⟨5, "Q?", "A", "1", 1⟩] : List Question), q.id ≠ (3 : Nat)) →
        delete_question true 3 [⟨5, "Q?", "A", "1", 1⟩]
          = (.error ⟨404, none⟩, [⟨5, "Q?", "A", "1", 1⟩]))
    ∧ (∃ q ∈ ([⟨5, "Q?", "A", "1", 1⟩] : List Question), q.id = (5 : Nat))
    ∧ ((delete_question true 5 [⟨5, "Q?", "A", "1", 1⟩]).1 = .ok ⟨true, 5⟩
        ∧ ∀ q ∈ (delete_question true 5 [⟨5, "Q?", "A", "1", 1⟩]).2,
            q.id ≠ (5 : Nat)) :=
  ⟨(C8_delete_question true 3 _).1,
   ⟨⟨5, "Q?", "A", "1", 1⟩, by decide, rfl⟩,
   (C8_delete_question true 5 _).2.2 ⟨⟨5, "Q?", "A", "1", 1⟩, by decide, rfl⟩ rfl⟩

/- The GET /api/categories/{id}/questions endpoint. -/

/-- Success body of the questions-by-category endpoint.  Note its
totalQuestions field is filled with the length of the current page. -/
structure CategoryQuestionsResponse where
  success : Bool
  questions : List FormattedQuestion
  totalQuestions : Nat
  currentCategory : Option Nat
deriving DecidableEq, Repr

/-- Embeds `get_questions_by_category(category_id)`: filters the store by
the string form of the id, paginates in memory, 404 on an empty slice,
and otherwise reports the length of the slice as totalQuestions. -/
def get_questions_by_category (page : Int) (category_id : Nat)
    (store : List Question) : Except HErr CategoryQuestionsResponse :=
  let questions := store.filter (fun q => q.category == toString category_id)
  let current_questions := paginate_questions page questions
  if current_questions.length = 0 then .error ⟨404, none⟩
  else .ok ⟨true, current_questions, current_questions.length,
    some category_id⟩

lemma paginate_length_le (p : Int) (qs : List Question) :
    (paginate_questions p qs).length ≤ 10 := by
  simp only [paginate_questions, QUESTIONS_PER_PAGE, pySlice,
    List.length_drop, List.length_take]
  unfold pyIdx
  split <;> split <;> omega

/-- C3: whenever the questions-by-category endpoint answers successfully,
its totalQuestions field equals the length of the returned page slice
(hence is at most 10) and currentCategory is the path category id; an
empty paginated slice is answered with 404. -/
theorem C3_by_category_totals (page : Int) (category_id : Nat)
    (store : List Question) :
    (∀ r, get_questions_by_category page category_id store = .ok r →
        r.totalQuestions = r.questions.length
        ∧ r.totalQuestions ≤ 10
        ∧ r.currentCategory = some category_id
        ∧ r.success = true)
    ∧ (paginate_questions page
          (store.filter (fun q => q.category == toString category_id)) = [] →
        get_questions_by_category page category_id store
          = .error ⟨404, none⟩) := by
  constructor
  · intro r hr
    simp only [get_questions_by_category] at hr
    split at hr
    · exact absurd hr (by simp)
    · cases hr
      refine ⟨rfl, paginate_length_le _ _, rfl, rfl⟩
  · intro hemp
    simp only [get_questions_by_category, hemp, List.length_nil, if_pos]

/-- The concrete success response of the C3 witness. -/
def c3_r0 : CategoryQuestionsResponse :=
  ⟨true, [⟨1, "Q?", "A", "1", 1⟩], 1, some 1⟩

theorem C3_by_category_totals_witness :
    (get_questions_by_category 1 1 [⟨1, "Q?", "A", "1", 1⟩] = .ok c3_r0)
    ∧ (c3_r0.totalQuestions = c3_r0.questions.length
        ∧ c3_r0.totalQuestions ≤ 10
        ∧ c3_r0.currentCategory = some 1
        ∧ c3_r0.success = true)
    ∧ (paginate_questions 1 (([⟨1, "Q?", "A", "1", 1⟩] : List Question).filter
          (fun q => q.category == toString (2 : Nat))) = []
        ∧ get_questions_by_category 1 2 [⟨1, "Q?", "A", "1", 1⟩]
            = .error ⟨404, none⟩) :=
  have h0 : get_questions_by_category 1 1 [⟨1, "Q?", "A", "1", 1⟩]
      = .ok c3_r0 := rfl
  have hemp : paginate_questions 1
      (([⟨1, "Q?", "A", "1", 1⟩] : List Question).filter
        (fun q => q.category == toString (2 : Nat))) = [] := by
    decide
  ⟨h0, (C3_by_category_totals 1 1 _).1 c3_r0 h0,
   hemp, (C3_by_category_totals 1 2 _).2 hemp⟩

/- The POST /api/quizzes endpoint. -/

/-- The JSON body of a quiz request: previous_questions is optional
(default empty) and quiz_category carries the category id; `none` models
a missing or malformed quiz_category object (which aborts with 400). -/
structure QuizBody where
  previous_questions : Option (List Nat)
  quiz_category : Option Nat
deriving DecidableEq, Repr

/-- Success body of the quiz endpoint; `none` in the question field means
the field is absent from the JSON ("no more questions"). -/
structure QuizResponse where
  success : Bool
  question : Option FormattedQuestion
deriving DecidableEq, Repr

/-- Embeds `add_quiz()`.  Category id 0 means all categories; otherwise
the filter additionally requires the question category to equal the
string form of the id.  `random.choice` over the formatted candidates is
modelled by the index parameter `pick`, reduced modulo the number of
candidates. -/
def add_quiz (pick : Nat) (body : QuizBody) (store : List Question) :
    Except HErr QuizResponse :=
  let previousQuestions := body.previous_questions.getD []
  match body.quiz_category with
  | none => .error ⟨400, none⟩
  | some quiz_category =>
    let questions :=
      if quiz_category = 0 then
        store.filter (fun q => ! previousQuestions.contains q.id)
      else
        store.filter (fun q =>
          q.category == toString quiz_category
            && ! previousQuestions.contains q.id)
    if h : questions.length = 0 then
      .ok ⟨true, none⟩
    else
      .ok ⟨true, some (Question.format (questions.get
        ⟨pick % questions.length, Nat.mod_lt _ (Nat.pos_of_ne_zero h)⟩))⟩

/-- C4: given quiz_category.id, the candidate set is the stored questions
whose id is not among previous_questions, additionally restricted to the
questions whose category equals the string form of the id when it is
nonzero; an empty candidate set is answered 200 with success true and no
question field, and otherwise the returned question is a (formatted)
member of the candidate set, selected by the random index. -/
theorem C4_quiz_candidates (pick : Nat) (body : QuizBody)
    (store : List Question) (cid : Nat)
    (h : body.quiz_category = some cid) :
    ((if cid = 0 then
        store.filter
          (fun q => ! (body.previous_questions.getD []).contains q.id)
      else
        store.filter (fun q => q.category == toString cid
          && ! (body.previous_questions.getD []).contains q.id)) = [] →
      add_quiz pick body store = .ok ⟨true, none⟩)
    ∧ ((if cid = 0 then
        store.filter
          (fun q => ! (body.previous_questions.getD []).contains q.id)
      else
        store.filter (fun q => q.category == toString cid
          && ! (body.previous_questions.getD []).contains q.id)) ≠ [] →
      ∃ c ∈ (if cid = 0 then
          store.filter
            (fun q => ! (body.previous_questions.getD []).contains q.id)
        else
          store.filter (fun q => q.category == toString cid
            && ! (body.previous_questions.getD []).contains q.id)),
        add_quiz pick body store = .ok ⟨true, some (Question.format c)⟩) := by
  rcases body with ⟨prev, qc⟩
  obtain rfl : qc = some cid := h
  dsimp only [add_quiz]
  constructor
  · intro he
    rw [dif_pos]
    rw [he]
    rfl
  · intro hne
    have hlen : ¬ (if cid = 0 then
        store.filter (fun q => ! (prev.getD []).contains q.id)
      else
        store.filter (fun q => q.category == toString cid
          && ! (prev.getD []).contains q.id)).length = 0 := by
      intro h0
      exact hne (List.length_eq_zero.mp h0)
    rw [dif_neg hlen]
    refine ⟨_, List.get_mem _ _ _, rfl⟩

theorem C4_quiz_candidates_witness :
    (QuizBody.mk (some [2]) (some 0)).quiz_category = some 0
    ∧ (if (0 : Nat) = 0 then
          ([⟨1, "Q?", "A", "1", 1⟩, ⟨2, "R?", "B", "2", 2⟩] :
              List Question).filter
            (fun q => ! (((QuizBody.mk (some [2]) (some 0)
                : QuizBody).previous_questions).getD []).contains q.id)
        else
          ([⟨1, "Q?", "A", "1", 1⟩, ⟨2, "R?", "B", "2", 2⟩] :
              List Question).filter
            (fun q => q.category == toString (0 : Nat)
              && ! (((QuizBody.mk (some [2]) (some 0)
                  : QuizBody).previous_questions).getD []).contains q.id))
        ≠ []
    ∧ ∃ c ∈ (if (0 : Nat) = 0 then
          ([⟨1, "Q?", "A", "1", 1⟩, ⟨2, "R?", "B", "2", 2⟩] :
              List Question).filter
            (fun q => ! (((QuizBody.mk (some [2]) (some 0)
                : QuizBody).previous_questions).getD []).contains q.id)
        else
          ([⟨1, "Q?", "A", "1", 1⟩, ⟨2, "R?", "B", "2", 2⟩] :
              List Question).filter
            (fun q => q.category == toString (0 : Nat)
              && ! (((QuizBody.mk (some [2]) (some 0)
                  : QuizBody).previous_questions).getD []).contains q.id)),
        add_quiz 4 (QuizBody.mk (some [2]) (some 0))
            [⟨1, "Q?", "A", "1", 1⟩, ⟨2, "R?", "B", "2", 2⟩]
          = .ok ⟨true, some (Question.format c)⟩ :=
  ⟨rfl, by decide,
   (C4_quiz_candidates 4 (QuizBody.mk (some [2]) (some 0))
      [⟨1, "Q?", "A", "1", 1⟩, ⟨2, "R?", "B", "2", 2⟩] 0 rfl).2 (by decide)⟩
